import Mathlib

/-!
Verification of the eo-learn workshop notebooks (norsc19-eo-learn-workshop).

The notebooks define a handful of small numeric "task" classes on top of the
external eo-learn container (`EOPatch`).  We embed those task functions
shallowly: numpy arrays become nested lists of rationals, the `EOPatch`
feature store becomes a map from (feature-type, name) pairs to stored values,
and the numpy operations used by the notebook code (count_nonzero, size,
sum, clip, unique, elementwise product, reshape/flatten) become the
corresponding list operations.
-/

/-- Raster arrays of the notebooks, modelled as nested lists of rationals.
A 1-D array (a flattened slice, or a scalar time series column). -/
abbrev Arr1 : Type := List ℚ

/-- A 2-D array (such as a single-band h x w image, or a t x d scalar). -/
abbrev Arr2 : Type := List (List ℚ)

/-- A 3-D array (h x w x c raster without a time dimension). -/
abbrev Arr3 : Type := List (List (List ℚ))

/-- A 4-D array (t x h x w x c raster with a time dimension). -/
abbrev Arr4 : Type := List (List (List (List ℚ)))

/-- np.count_nonzero on a 1-D array: the number of elements that are not 0. -/
def count_nonzero1 (a : Arr1) : ℕ := (a.filter (fun x => x ≠ 0)).length

/-- np.count_nonzero on a 3-D array. -/
def count_nonzero3 (a : Arr3) : ℕ := (a.map (fun p => (p.map count_nonzero1).sum)).sum

/-- np.sum on a 3-D array. -/
def sum3 (a : Arr3) : ℚ := (a.map (fun p => (p.map (fun r => r.sum)).sum)).sum

/-- Flattening of an h x w x c slice into a 1-D array, as done by
numpy reshape((time, height * width * channels)) for each date. -/
def flatten3 (a : Arr3) : Arr1 := (a.map List.flatten).flatten

/-- From src/notebooks/workshop.ipynb (also named `coverage` in the
water-level notebook): calculate_coverage(array) =
1.0 - np.count_nonzero(array) / np.size(array). -/
def calculate_coverage (array : Arr1) : ℚ :=
  1 - (count_nonzero1 array : ℚ) / (array.length : ℚ)

/-- From src/notebooks/workshop.ipynb, the bounding-box inflation of the
dam bbox: both x and y extents are pushed outwards by ratio times the
corresponding side length.  Returns (minx, miny, maxx, maxy). -/
def inflateBounds (ratio minx miny maxx maxy : ℚ) : ℚ × ℚ × ℚ × ℚ :=
  let delx := maxx - minx
  let dely := maxy - miny
  (minx - delx * ratio, miny - dely * ratio, maxx + delx * ratio, maxy + dely * ratio)

/-- len(np.unique(a)) for a 2-D array: the number of distinct values. -/
def uniqueCount (a : Arr2) : ℕ := a.flatten.dedup.length

/-- WaterDetector.detect_water from src/notebooks/workshop.ipynb:
otsu_thr = 1.0; if len(np.unique(ndwi)) > 1: otsu_thr = threshold_otsu(ndwi);
return ndwi > otsu_thr.  The external skimage threshold_otsu is a parameter. -/
def detect_water (otsu : Arr2 → ℚ) (ndwi : Arr2) : List (List Bool) :=
  let otsu_thr : ℚ := if 1 < uniqueCount ndwi then otsu ndwi else 1
  ndwi.map (fun row => row.map (fun x => decide (otsu_thr < x)))

/-- The threshold used by detect_water: the Otsu threshold when the array has
more than one distinct value, and 1.0 otherwise. -/
def waterThreshold (otsu : Arr2 → ℚ) (ndwi : Arr2) : ℚ :=
  if 1 < uniqueCount ndwi then otsu ndwi else 1

/-- CloudCoverageFilter.__call__ from src/notebooks/timelapse.ipynb:
height, width, _ = cloud_mask.shape;
cloud_coverage = np.sum(cloud_mask) / (height * width);
return cloud_coverage <= self.max_cc. -/
def CloudCoverageFilter_call (max_cc : ℚ) (cloud_mask : Arr3) : Bool :=
  let height := cloud_mask.length
  let width := (cloud_mask.headD []).length
  let cloud_coverage := sum3 cloud_mask / ((height : ℚ) * (width : ℚ))
  decide (cloud_coverage ≤ max_cc)

/-- The feature-type categories of the eo-learn container used by the
notebooks (the raster kinds of the shape table in the overview notebook). -/
inductive FeatureType where
  | data
  | mask
  | scalar
  | label
  | dataTimeless
  | maskTimeless
  | scalarTimeless
  | labelTimeless
  deriving DecidableEq

/-- A value stored in the feature store: a raster array of dimension 1 to 4. -/
inductive FeatValue where
  | a1 (v : Arr1)
  | a2 (v : Arr2)
  | a3 (v : Arr3)
  | a4 (v : Arr4)
  deriving DecidableEq

/-- A feature is addressed by a (category, name) pair. -/
abbrev Feature : Type := FeatureType × String

/-- The EOPatch container, reduced to what the notebooks use: a feature store
keyed by (feature-type, name) pairs. -/
structure EOPatch where
  features : Feature → Option FeatValue

/-- Dict-style assignment eopatch[feature] = value. -/
def EOPatch.setFeature (p : EOPatch) (f : Feature) (v : FeatValue) : EOPatch :=
  ⟨fun g => if g = f then some v else p.features g⟩

/-- Dict-style deletion del eopatch[feature]. -/
def EOPatch.delFeature (p : EOPatch) (f : Feature) : EOPatch :=
  ⟨fun g => if g = f then none else p.features g⟩

/-- Modelled from the spec: the number of array dimensions each raster
feature type mandates, per the shape-by-category table of the overview
notebook (DATA and MASK are t x n x m x d, SCALAR and LABEL are t x d,
the timeless raster kinds drop the time dimension).  The validation code
itself lives in the external eo-learn library, not in this repository. -/
def requiredNdim : FeatureType → ℕ
  | .data => 4
  | .mask => 4
  | .scalar => 2
  | .label => 2
  | .dataTimeless => 3
  | .maskTimeless => 3
  | .scalarTimeless => 1
  | .labelTimeless => 1

/-- The number of dimensions of a stored value. -/
def FeatValue.ndim : FeatValue → ℕ
  | .a1 _ => 1
  | .a2 _ => 2
  | .a3 _ => 3
  | .a4 _ => 4

/-- Modelled from the spec: assignment into a raster feature-type dict
validates the array dimensionality against the category and raises
ValueError on mismatch (the external container "rejects malformed input"). -/
def EOPatch.assignRaster (p : EOPatch) (ft : FeatureType) (nm : String) (v : FeatValue) :
    Except String EOPatch :=
  if v.ndim = requiredNdim ft then .ok (p.setFeature (ft, nm) v)
  else .error "ValueError: shape mismatch"

/-- The notebook's try/except around the failing assignment
patch.data['timeless_example'] = timeless_data: on ValueError the exception
is caught (its message printed) and the patch is left as it was. -/
def tryAssignRaster (p : EOPatch) (ft : FeatureType) (nm : String) (v : FeatValue) : EOPatch :=
  match p.assignRaster ft nm v with
  | .ok p2 => p2
  | .error _ => p

/-- RenameFeature.execute from src/unnamed/part_000:
eopatch[self.new_feature] = eopatch[self.feature]; del eopatch[self.feature];
return eopatch.  Reading a missing feature raises, hence the Option. -/
def RenameFeature_execute (feature new_feature : Feature) (p : EOPatch) : Option EOPatch :=
  match p.features feature with
  | some v => some ((p.setFeature new_feature v).delFeature feature)
  | none => none

/-- AddValidDataCoverage.execute from src/notebooks/workshop.ipynb:
per-date coverage of the flattened VALID_DATA slice, stored (with a new
axis, so as a t x 1 array) under SCALAR 'COVERAGE'. -/
def AddValidDataCoverage_execute (p : EOPatch) : Option EOPatch :=
  match p.features (.mask, "VALID_DATA") with
  | some (.a4 valid_data) =>
      let cov := valid_data.map (fun slice => calculate_coverage (flatten3 slice))
      some (p.setFeature (.scalar, "COVERAGE") (.a2 (cov.map (fun x => [x]))))
  | _ => none

/-- ndwi[..., 0]: channel 0 of each pixel of a date slice. -/
def band0 (a : Arr3) : Arr2 := a.map (fun row => row.map (fun ch => ch.headD 0))

/-- One date of water_masks[..., np.newaxis] * eopatch.mask_timeless['NOMINAL_WATER']:
the boolean detect_water mask of the date's NDWI band, broadcast-multiplied
with the nominal water mask (True counts as 1, False as 0). -/
def waterMask (otsu : Arr2 → ℚ) (ndwi : Arr3) (nominal : Arr3) : Arr3 :=
  List.zipWith
    (fun brow nrow =>
      List.zipWith (fun b nch => nch.map (fun nv => (if b then (1 : ℚ) else 0) * nv)) brow nrow)
    (detect_water otsu (band0 ndwi)) nominal

/-- WaterDetector.execute from src/notebooks/workshop.ipynb: per-date water
masks intersected with NOMINAL_WATER, and per-date water levels
count_nonzero(mask) / count_nonzero(NOMINAL_WATER), stored under
MASK 'WATER_MASK' and (with a new axis) SCALAR 'WATER_LEVEL'. -/
def WaterDetector_execute (otsu : Arr2 → ℚ) (p : EOPatch) : Option EOPatch :=
  match p.features (.data, "NDWI"), p.features (.maskTimeless, "NOMINAL_WATER") with
  | some (.a4 ndwiStack), some (.a3 nominal) =>
      let water_masks := ndwiStack.map (fun nd => waterMask otsu nd nominal)
      let water_levels := water_masks.map
        (fun m => (count_nonzero3 m : ℚ) / (count_nonzero3 nominal : ℚ))
      some ((p.setFeature (.mask, "WATER_MASK") (.a4 water_masks)).setFeature
        (.scalar, "WATER_LEVEL") (.a2 (water_levels.map (fun x => [x]))))
  | _, _ => none

/-- np.clip(x, 0, 1). -/
def clip01 (x : ℚ) : ℚ := max 0 (min x 1)

/-- Casting a non-negative float to uint8 as np.array(-, dtype=np.uint8)
does: truncation toward zero. -/
def toUint8 (x : ℚ) : ℕ := (⌊x⌋).toNat

/-- One output pixel value of the timelapse frame:
np.clip(v * brightness_factor, 0, 1) * 255 cast to uint8. -/
def framePixelValue (brightness x : ℚ) : ℕ := toUint8 (clip01 (x * brightness) * 255)

/-- One GIF frame of TimeLapseTask.execute: the RGB bands at channel
positions [3, 2, 1] of each pixel, brightened, clipped and cast. -/
def makeFrameRGB (brightness : ℚ) (image : Arr3) : List (List (List ℕ)) :=
  image.map (fun row => row.map (fun chans =>
    [3, 2, 1].map (fun i => framePixelValue brightness (chans.getD i 0))))

/-- TimeLapseTask.execute from src/notebooks/timelapse.ipynb: writes one
frame per date of DATA 'BANDS-S2-L1C' to the GIF and returns the original
eopatch.  The written frames are returned alongside the patch so the file
effect can be stated. -/
def TimeLapseTask_execute (brightness_factor : ℚ) (p : EOPatch) :
    Option (EOPatch × List (List (List (List ℕ)))) :=
  match p.features (.data, "BANDS-S2-L1C") with
  | some (.a4 stack) => some (p, stack.map (makeFrameRGB brightness_factor))
  | _ => none

/-- Every scalar entry of a t x d array lies in the closed interval [0, 1]. -/
def allInUnit (lv : Arr2) : Prop := ∀ r ∈ lv, ∀ x ∈ r, 0 ≤ x ∧ x ≤ 1

/-- Every written pixel value of every frame is at most 255. -/
def framesBounded (frames : List (List (List (List ℕ)))) : Prop :=
  ∀ f ∈ frames, ∀ row ∈ f, ∀ px ∈ row, ∀ v ∈ px, v ≤ 255

/-- Concrete patch for the AddValidDataCoverage counterexample: it holds a
1 x 1 x 1 x 1 VALID_DATA mask and a pre-existing SCALAR 'COVERAGE'. -/
def covPatch : EOPatch :=
  ⟨fun g =>
    if g = (FeatureType.mask, "VALID_DATA") then some (.a4 [[[[1]]]])
    else if g = (FeatureType.scalar, "COVERAGE") then some (.a2 [[5]])
    else none⟩

/-- Concrete patch holding one DATA feature named bands, for the rename
witnesses. -/
def renamePatch : EOPatch :=
  ⟨fun g => if g = (FeatureType.data, "bands") then some (.a1 [2]) else none⟩

/-- Concrete patch holding a 1 x 2 x 1 x 1 VALID_DATA mask and no other
feature, for the coverage witness. -/
def covPatch2 : EOPatch :=
  ⟨fun g => if g = (FeatureType.mask, "VALID_DATA") then some (.a4 [[[[1]], [[0]]]]) else none⟩

/-- Concrete patch holding a 1 x 1 x 1 x 1 NDWI stack and a 1 x 1 x 1
nominal water mask, for the water-level witness. -/
def wPatch : EOPatch :=
  ⟨fun g =>
    if g = (FeatureType.data, "NDWI") then some (.a4 [[[[5]]]])
    else if g = (FeatureType.maskTimeless, "NOMINAL_WATER") then some (.a3 [[[1]]])
    else none⟩

/-- The patch WaterDetector.execute produces on the concrete wPatch. -/
def wOut : EOPatch := (WaterDetector_execute (fun _ => 0) wPatch).getD wPatch

/-- The WATER_LEVEL scalar stored in wOut. -/
def wLv : Arr2 :=
  match wOut.features (FeatureType.scalar, "WATER_LEVEL") with
  | some (.a2 lv) => lv
  | _ => []

/-- Concrete patch holding a 1 x 1 x 1 x 6 BANDS-S2-L1C stack, for the
timelapse witness. -/
def tlPatch : EOPatch :=
  ⟨fun g =>
    if g = (FeatureType.data, "BANDS-S2-L1C") then some (.a4 [[[[0, 0, 0, 2, 3, 5]]]])
    else none⟩

/-- The patch and frames TimeLapseTask.execute produces on tlPatch. -/
def tlResult : EOPatch × List (List (List (List ℕ))) :=
  (TimeLapseTask_execute 1 tlPatch).getD (tlPatch, [])

/-- C3: calculate_coverage (the `coverage` helper of the water-level
notebooks) returns, for every non-empty array, 1 minus the fraction of
non-zero elements; this equals the fraction of zero-valued elements and
lies in the closed interval [0, 1]. -/
theorem calculate_coverage_eq_zero_fraction (a : Arr1) (h : a ≠ []) :
    calculate_coverage a = ((a.filter (fun x => x = 0)).length : ℚ) / (a.length : ℚ) ∧
    0 ≤ calculate_coverage a ∧ calculate_coverage a ≤ 1 := by
  have hlen : 0 < a.length := List.length_pos.mpr h
  have hlenQ : (0 : ℚ) < (a.length : ℚ) := by exact_mod_cast hlen
  have hsplit : a.length
      = (a.filter (fun x => x = 0)).length + (a.filter (fun x => x ≠ 0)).length := by
    simpa [decide_not] using @List.length_eq_length_filter_add ℚ a (fun x => decide (x = 0))
  have hsplitQ : ((a.length : ℚ))
      = ((a.filter (fun x => x = 0)).length : ℚ) + ((a.filter (fun x => x ≠ 0)).length : ℚ) := by
    exact_mod_cast hsplit
  have hnzQ : ((a.filter (fun x => x ≠ 0)).length : ℚ) ≤ (a.length : ℚ) := by
    exact_mod_cast List.length_filter_le _ _
  refine ⟨?_, ?_, ?_⟩
  · unfold calculate_coverage count_nonzero1
    simp only [decide_not] at hsplitQ hnzQ ⊢
    field_simp
    linarith
  · unfold calculate_coverage count_nonzero1
    rw [sub_nonneg, div_le_one hlenQ]
    exact hnzQ
  · unfold calculate_coverage count_nonzero1
    have h0 : (0 : ℚ) ≤ ((a.filter (fun x => x ≠ 0)).length : ℚ) / (a.length : ℚ) :=
      div_nonneg (by positivity) hlenQ.le
    linarith

/-- C3 witness: the bound and the zero-fraction identity evaluated on the
concrete array [0, 1]. -/
theorem calculate_coverage_witness :
    ([(0 : ℚ), 1] ≠ ([] : Arr1)) ∧
    (calculate_coverage [(0 : ℚ), 1]
        = ((([(0 : ℚ), 1].filter (fun x => x = 0)).length : ℚ) / (([(0 : ℚ), 1] : Arr1).length : ℚ) ) ∧
      0 ≤ calculate_coverage [(0 : ℚ), 1] ∧ calculate_coverage [(0 : ℚ), 1] ≤ 1) :=
  ⟨by simp, calculate_coverage_eq_zero_fraction [(0 : ℚ), 1] (by simp)⟩

/-- C10: inflating with ratio 1/10 gives exactly the box of the claim; when
the original bounds are ordered, the inflated box contains them and each
side length is 12/10 times the original side length. -/
theorem dam_bbox_inflation (minx miny maxx maxy : ℚ)
    (hx : minx ≤ maxx) (hy : miny ≤ maxy) :
    inflateBounds (1/10) minx miny maxx maxy
      = (minx - (1/10) * (maxx - minx), miny - (1/10) * (maxy - miny),
         maxx + (1/10) * (maxx - minx), maxy + (1/10) * (maxy - miny)) ∧
    (minx - (1/10) * (maxx - minx) ≤ minx ∧ maxx ≤ maxx + (1/10) * (maxx - minx) ∧
     miny - (1/10) * (maxy - miny) ≤ miny ∧ maxy ≤ maxy + (1/10) * (maxy - miny)) ∧
    ((maxx + (1/10) * (maxx - minx)) - (minx - (1/10) * (maxx - minx))
        = (12/10) * (maxx - minx) ∧
     (maxy + (1/10) * (maxy - miny)) - (miny - (1/10) * (maxy - miny))
        = (12/10) * (maxy - miny)) := by
  refine ⟨?_, ⟨by linarith, by linarith, by linarith, by linarith⟩, by ring, by ring⟩
  unfold inflateBounds
  refine Prod.ext (by ring) (Prod.ext (by ring) (Prod.ext (by ring) (by ring)))

/-- C10 witness: the inflation evaluated on the concrete bounds
(0, 0, 10, 20). -/
theorem dam_bbox_inflation_witness :
    ((0 : ℚ) ≤ 10 ∧ (0 : ℚ) ≤ 20) ∧
    inflateBounds (1/10) 0 0 10 20 = (-1, -2, 11, 22) := by
  refine ⟨⟨by norm_num, by norm_num⟩, ?_⟩
  have h := dam_bbox_inflation 0 0 10 20 (by norm_num) (by norm_num)
  rw [h.1]
  norm_num

/-- If every element of a list is the same value, the list has at most one
distinct element. -/
theorem dedup_length_le_one_of_const {c : ℚ} {l : List ℚ} (h : ∀ x ∈ l, x = c) :
    l.dedup.length ≤ 1 := by
  induction l with
  | nil => simp
  | cons a t ih =>
    have ha : a = c := h a (by simp)
    by_cases hm : a ∈ t
    · rw [List.dedup_cons_of_mem hm]
      exact ih (fun x hx => h x (by simp [hx]))
    · rw [List.dedup_cons_of_not_mem hm]
      have ht : t.dedup = [] := by
        by_contra hne
        obtain ⟨y, hy⟩ := List.exists_mem_of_ne_nil _ hne
        have hyt : y ∈ t := List.mem_dedup.mp hy
        have hyc : y = c := h y (by simp [hyt])
        exact hm (by rw [ha, ← hyc]; exact hyt)
      simp [ht]

/-- C2: detect_water thresholds the NDWI array strictly above the Otsu
threshold when the array has more than one distinct value, and above 1.0
otherwise; consequently a constant array whose value is at most 1.0
produces an all-False mask. -/
theorem detect_water_correct (otsu : Arr2 → ℚ) (ndwi : Arr2) :
    detect_water otsu ndwi
      = ndwi.map (fun row => row.map (fun x => decide (waterThreshold otsu ndwi < x))) ∧
    (∀ c : ℚ, c ≤ 1 → (∀ x ∈ ndwi.flatten, x = c) →
      detect_water otsu ndwi = ndwi.map (fun row => row.map (fun _ => false))) := by
  constructor
  · rfl
  · intro c hc hconst
    have hthr : waterThreshold otsu ndwi = 1 := by
      unfold waterThreshold
      have : ndwi.flatten.dedup.length ≤ 1 := dedup_length_le_one_of_const hconst
      have hnot : ¬ 1 < uniqueCount ndwi := by
        unfold uniqueCount; omega
      simp [hnot]
    show ndwi.map (fun row => row.map (fun x => decide (waterThreshold otsu ndwi < x))) = _
    apply List.map_congr_left
    intro row hrow
    apply List.map_congr_left
    intro x hx
    have hxc : x = c := hconst x (List.mem_flatten.mpr ⟨row, hrow, hx⟩)
    rw [hthr, hxc]
    simp only [decide_eq_false_iff_not, not_lt]
    exact hc

/-- C2 witness: a constant array with value 1 yields an all-False mask,
whatever the otsu function would have returned. -/
theorem detect_water_witness :
    ((1 : ℚ) ≤ 1 ∧ ∀ x ∈ ([[(1 : ℚ), 1]] : Arr2).flatten, x = 1) ∧
    detect_water (fun _ => 37) [[(1 : ℚ), 1]] = [[false, false]] := by
  refine ⟨⟨le_refl 1, by norm_num⟩, ?_⟩
  have h := (detect_water_correct (fun _ => 37) [[(1 : ℚ), 1]]).2 1 (le_refl 1) (by norm_num)
  simpa using h

/-- C5: the cloud coverage filter keeps a frame exactly when the sum of the
mask divided by height times width is at most max_cc; in particular a frame
whose coverage equals max_cc exactly is kept. -/
theorem cloud_coverage_filter_correct (max_cc : ℚ) (cloud_mask : Arr3) :
    (CloudCoverageFilter_call max_cc cloud_mask = true
      ↔ sum3 cloud_mask
          / ((cloud_mask.length : ℚ) * ((cloud_mask.headD []).length : ℚ)) ≤ max_cc) ∧
    (sum3 cloud_mask
        / ((cloud_mask.length : ℚ) * ((cloud_mask.headD []).length : ℚ)) = max_cc →
      CloudCoverageFilter_call max_cc cloud_mask = true) := by
  constructor
  · unfold CloudCoverageFilter_call
    exact decide_eq_true_iff
  · intro h
    unfold CloudCoverageFilter_call
    exact decide_eq_true (le_of_eq h)

/-- C5 witness: a 2 x 2 x 1 mask with two cloudy pixels has coverage 1/2 and
is kept by the filter at max_cc = 1/2. -/
theorem cloud_coverage_filter_witness :
    (sum3 [[[(0 : ℚ)], [1]], [[1], [0]]]
        / ((([[[(0 : ℚ)], [1]], [[1], [0]]] : Arr3).length : ℚ)
            * ((([[[(0 : ℚ)], [1]], [[1], [0]]] : Arr3).headD []).length : ℚ)) = 1/2) ∧
    CloudCoverageFilter_call (1/2) [[[(0 : ℚ)], [1]], [[1], [0]]] = true := by
  have hs : sum3 [[[(0 : ℚ)], [1]], [[1], [0]]]
      / ((([[[(0 : ℚ)], [1]], [[1], [0]]] : Arr3).length : ℚ)
          * ((([[[(0 : ℚ)], [1]], [[1], [0]]] : Arr3).headD []).length : ℚ)) = 1/2 := by
    norm_num [sum3]
  exact ⟨hs, (cloud_coverage_filter_correct (1/2) _).2 hs⟩

/-- C1: assigning a 3-D array to the time-dependent DATA feature type raises
a ValueError, and the try/except around it leaves the patch unchanged. -/
theorem timeless_assignment_rejected (p : EOPatch) (nm : String) (v : Arr3) :
    p.assignRaster .data nm (.a3 v) = .error "ValueError: shape mismatch" ∧
    tryAssignRaster p .data nm (.a3 v) = p := by
  constructor
  · unfold EOPatch.assignRaster
    simp [FeatValue.ndim, requiredNdim]
  · unfold tryAssignRaster EOPatch.assignRaster
    simp [FeatValue.ndim, requiredNdim]

/-- C7: renaming a feature to a different key moves the stored data to the
new key, removes the old key, and leaves every other feature unchanged. -/
theorem rename_feature_correct (f nf : Feature) (p : EOPatch) (v : FeatValue)
    (hne : nf ≠ f) (hv : p.features f = some v) :
    RenameFeature_execute f nf p = some ((p.setFeature nf v).delFeature f) ∧
    ((p.setFeature nf v).delFeature f).features nf = some v ∧
    ((p.setFeature nf v).delFeature f).features f = none ∧
    ∀ g, g ≠ f → g ≠ nf → ((p.setFeature nf v).delFeature f).features g = p.features g := by
  refine ⟨?_, ?_, ?_, ?_⟩
  · unfold RenameFeature_execute
    rw [hv]
  · simp [EOPatch.setFeature, EOPatch.delFeature, hne]
  · simp [EOPatch.setFeature, EOPatch.delFeature]
  · intro g hgf hgnf
    simp [EOPatch.setFeature, EOPatch.delFeature, hgf, hgnf]

/-- C7 witness: renaming (DATA, bands) to (DATA, bands2) on the concrete
one-feature patch moves the data and empties the old key. -/
theorem rename_feature_witness :
    (((FeatureType.data, "bands2") : Feature) ≠ (FeatureType.data, "bands") ∧
      renamePatch.features (FeatureType.data, "bands") = some (.a1 [2])) ∧
    (((renamePatch.setFeature (FeatureType.data, "bands2") (.a1 [2])).delFeature
        (FeatureType.data, "bands")).features (FeatureType.data, "bands2") = some (.a1 [2]) ∧
      ((renamePatch.setFeature (FeatureType.data, "bands2") (.a1 [2])).delFeature
        (FeatureType.data, "bands")).features (FeatureType.data, "bands") = none) := by
  have h := rename_feature_correct (FeatureType.data, "bands") (FeatureType.data, "bands2")
    renamePatch (.a1 [2]) (by simp) (by simp [renamePatch])
  exact ⟨⟨by simp, by simp [renamePatch]⟩, h.2.1, h.2.2.1⟩

/-- C8: renaming a feature to itself loses the data: the assignment writes
it back under the same key and the delete then removes the key entirely;
all other features are untouched. -/
theorem rename_feature_same_key_loses_data (f : Feature) (p : EOPatch) (v : FeatValue)
    (hv : p.features f = some v) :
    RenameFeature_execute f f p = some ((p.setFeature f v).delFeature f) ∧
    ((p.setFeature f v).delFeature f).features f = none ∧
    ∀ g, g ≠ f → ((p.setFeature f v).delFeature f).features g = p.features g := by
  refine ⟨?_, ?_, ?_⟩
  · unfold RenameFeature_execute
    rw [hv]
  · simp [EOPatch.setFeature, EOPatch.delFeature]
  · intro g hgf
    simp [EOPatch.setFeature, EOPatch.delFeature, hgf]

/-- C8 witness: renaming (DATA, bands) to itself on the concrete one-feature
patch leaves a patch that no longer contains the feature. -/
theorem rename_feature_same_key_witness :
    renamePatch.features (FeatureType.data, "bands") = some (.a1 [2]) ∧
    ((renamePatch.setFeature (FeatureType.data, "bands") (.a1 [2])).delFeature
      (FeatureType.data, "bands")).features (FeatureType.data, "bands") = none := by
  have h := rename_feature_same_key_loses_data (FeatureType.data, "bands")
    renamePatch (.a1 [2]) (by simp [renamePatch])
  exact ⟨by simp [renamePatch], h.2.1⟩

/-- C6 counterexample: on a patch that already holds a SCALAR 'COVERAGE'
feature with value [[5]], AddValidDataCoverage.execute overwrites it with
the computed coverage [[0]], so not every pre-existing feature is left
unchanged. -/
theorem add_coverage_overwrites_existing :
    covPatch.features (FeatureType.scalar, "COVERAGE") = some (.a2 [[5]]) ∧
    (AddValidDataCoverage_execute covPatch).map
        (fun q => q.features (FeatureType.scalar, "COVERAGE"))
      = some (some (.a2 [[0]])) ∧
    (FeatValue.a2 [[5]] : FeatValue) ≠ .a2 [[0]] := by
  refine ⟨by simp [covPatch], ?_, by simp⟩
  have hcov : calculate_coverage (flatten3 [[[1]]]) = 0 := by
    norm_num [calculate_coverage, flatten3, count_nonzero1, List.filter]
  simp [AddValidDataCoverage_execute, covPatch, EOPatch.setFeature, hcov]

/-- C6 (amended): on every patch holding a 4-D MASK 'VALID_DATA',
AddValidDataCoverage.execute stores under SCALAR 'COVERAGE' the t x 1 array
whose entry for each date is calculate_coverage of that date's flattened
slice, and leaves every feature other than SCALAR 'COVERAGE' unchanged
(a pre-existing SCALAR 'COVERAGE' is overwritten). -/
theorem add_valid_data_coverage_correct (p : EOPatch) (vd : Arr4)
    (hv : p.features (FeatureType.mask, "VALID_DATA") = some (.a4 vd)) :
    AddValidDataCoverage_execute p
      = some (p.setFeature (FeatureType.scalar, "COVERAGE")
          (.a2 (vd.map (fun s => [calculate_coverage (flatten3 s)])))) ∧
    (p.setFeature (FeatureType.scalar, "COVERAGE")
        (.a2 (vd.map (fun s => [calculate_coverage (flatten3 s)])))).features
      (FeatureType.scalar, "COVERAGE")
      = some (.a2 (vd.map (fun s => [calculate_coverage (flatten3 s)]))) ∧
    (vd.map (fun s => [calculate_coverage (flatten3 s)])).length = vd.length ∧
    (∀ r ∈ vd.map (fun s => [calculate_coverage (flatten3 s)]), r.length = 1) ∧
    ∀ g, g ≠ (FeatureType.scalar, "COVERAGE") →
      (p.setFeature (FeatureType.scalar, "COVERAGE")
          (.a2 (vd.map (fun s => [calculate_coverage (flatten3 s)])))).features g
        = p.features g := by
  refine ⟨?_, ?_, by simp, ?_, ?_⟩
  · unfold AddValidDataCoverage_execute
    rw [hv]
    dsimp only
    rw [List.map_map]
    rfl
  · simp [EOPatch.setFeature]
  · intro r hr
    simp only [List.mem_map] at hr
    obtain ⟨s, _, rfl⟩ := hr
    rfl
  · intro g hg
    simp [EOPatch.setFeature, hg]

/-- C6 witness: the coverage task evaluated on the concrete covPatch2,
whose single date has one valid and one invalid pixel. -/
theorem add_valid_data_coverage_witness :
    covPatch2.features (FeatureType.mask, "VALID_DATA") = some (.a4 [[[[1]], [[0]]]]) ∧
    (covPatch2.setFeature (FeatureType.scalar, "COVERAGE")
        (.a2 (([[[[(1 : ℚ)]], [[0]]]] : Arr4).map
          (fun s => [calculate_coverage (flatten3 s)])))).features
      (FeatureType.scalar, "COVERAGE")
      = some (.a2 [[1/2]]) := by
  have h := add_valid_data_coverage_correct covPatch2 [[[[1]], [[0]]]] (by simp [covPatch2])
  refine ⟨by simp [covPatch2], ?_⟩
  rw [h.2.1]
  have : calculate_coverage (flatten3 [[[(1 : ℚ)]], [[0]]]) = 1/2 := by
    norm_num [calculate_coverage, flatten3, count_nonzero1, List.filter]
  simp [this]

/-- Multiplying every element of a row by a fixed factor cannot increase the
number of non-zero elements. -/
theorem count_nonzero1_map_mul_le (c : ℚ) (l : Arr1) :
    count_nonzero1 (l.map (fun nv => c * nv)) ≤ count_nonzero1 l := by
  unfold count_nonzero1
  rw [← List.countP_eq_length_filter, ← List.countP_eq_length_filter, List.countP_map]
  apply List.countP_mono_left
  intro a _ h
  simp only [Function.comp] at h
  simp only [decide_eq_true_eq] at h ⊢
  intro ha
  exact h (by rw [ha, mul_zero])

/-- Per-pixel-row version: a boolean row broadcast-multiplied into a row of
nominal pixels has at most as many non-zero entries as the nominal row. -/
theorem nz_zip_row_le (brow : List Bool) (nrow : List Arr1) :
    ((List.zipWith
        (fun b nch => nch.map (fun nv => (if b then (1 : ℚ) else 0) * nv)) brow nrow).map
      count_nonzero1).sum
      ≤ (nrow.map count_nonzero1).sum := by
  induction brow generalizing nrow with
  | nil => simp
  | cons b bs ih =>
    cases nrow with
    | nil => simp
    | cons nch ns =>
      simp only [List.zipWith_cons_cons, List.map_cons, List.sum_cons]
      exact Nat.add_le_add (count_nonzero1_map_mul_le _ _) (ih ns)

/-- The per-date water mask, being the nominal mask with some pixels zeroed,
has at most as many non-zero pixels as the nominal mask. -/
theorem count_nonzero3_waterMask_le (otsu : Arr2 → ℚ) (nd nominal : Arr3) :
    count_nonzero3 (waterMask otsu nd nominal) ≤ count_nonzero3 nominal := by
  unfold waterMask count_nonzero3
  generalize detect_water otsu (band0 nd) = bmask
  induction bmask generalizing nominal with
  | nil => simp
  | cons brow bs ih =>
    cases nominal with
    | nil => simp
    | cons nrow ns =>
      simp only [List.zipWith_cons_cons, List.map_cons, List.sum_cons]
      exact Nat.add_le_add (nz_zip_row_le brow nrow) (ih ns)

/-- C4: whenever the nominal water mask has at least one non-zero pixel,
every value WaterDetector.execute stores in SCALAR 'WATER_LEVEL' lies in
[0, 1]: each per-date mask is intersected with the nominal mask before its
non-zero pixel count is divided by the nominal non-zero pixel count. -/
theorem water_levels_in_unit_interval (otsu : Arr2 → ℚ) (p q : EOPatch)
    (nominal : Arr3) (lv : Arr2)
    (hnom : p.features (FeatureType.maskTimeless, "NOMINAL_WATER") = some (.a3 nominal))
    (hpos : 0 < count_nonzero3 nominal)
    (hex : WaterDetector_execute otsu p = some q)
    (hlv : q.features (FeatureType.scalar, "WATER_LEVEL") = some (.a2 lv)) :
    allInUnit lv := by
  unfold WaterDetector_execute at hex
  rw [hnom] at hex
  cases hnd : p.features (FeatureType.data, "NDWI") with
  | none => rw [hnd] at hex; exact absurd hex (by simp)
  | some fv =>
    rw [hnd] at hex
    cases fv with
    | a1 v => exact absurd hex (by simp)
    | a2 v => exact absurd hex (by simp)
    | a3 v => exact absurd hex (by simp)
    | a4 ndwiStack =>
      simp only [Option.some.injEq] at hex
      subst hex
      simp only [EOPatch.setFeature, Option.some.injEq, FeatValue.a2.injEq, if_pos] at hlv
      subst hlv
      intro r hr x hx
      simp only [List.mem_map] at hr
      obtain ⟨lvl, ⟨m, ⟨nd, hndmem, rfl⟩, rfl⟩, rfl⟩ := hr
      simp only [List.mem_singleton] at hx
      subst hx
      have hposQ : (0 : ℚ) < (count_nonzero3 nominal : ℚ) := by exact_mod_cast hpos
      constructor
      · exact div_nonneg (by positivity) hposQ.le
      · rw [div_le_one hposQ]
        exact_mod_cast count_nonzero3_waterMask_le otsu nd nominal

/-- C4 witness: the water detector evaluated on the concrete wPatch, whose
nominal mask has one non-zero pixel. -/
theorem water_levels_witness :
    (wPatch.features (FeatureType.maskTimeless, "NOMINAL_WATER") = some (.a3 [[[1]]]) ∧
      0 < count_nonzero3 [[[1]]] ∧
      WaterDetector_execute (fun _ => 0) wPatch = some wOut ∧
      wOut.features (FeatureType.scalar, "WATER_LEVEL") = some (.a2 wLv)) ∧
    allInUnit wLv := by
  have hpos : 0 < count_nonzero3 [[[(1 : ℚ)]]] := by
    norm_num [count_nonzero3, count_nonzero1, List.filter]
  have h := water_levels_in_unit_interval (fun _ => 0) wPatch wOut [[[1]]] wLv
    (by rfl) hpos (by rfl) (by rfl)
  exact ⟨⟨by rfl, hpos, by rfl, by rfl⟩, h⟩

/-- A brightened, clipped, 255-scaled and uint8-cast pixel value is at most
255. -/
theorem framePixelValue_le_255 (b x : ℚ) : framePixelValue b x ≤ 255 := by
  unfold framePixelValue toUint8 clip01
  have h1 : max 0 (min (x * b) 1) ≤ 1 := max_le (by norm_num) (min_le_right _ _)
  have h2 : max 0 (min (x * b) 1) * 255 ≤ 255 := by nlinarith
  have h3 : (⌊max 0 (min (x * b) 1) * 255⌋ : ℤ) ≤ 255 := by
    have := Int.floor_le_floor h2
    simpa using this
  exact Int.toNat_le.mpr h3

/-- C9: TimeLapseTask.execute returns the input patch unchanged; the frames
it writes are the channel [3, 2, 1] selections, brightened, clipped to
[0, 1] and scaled to uint8, so every written pixel value lies in [0, 255]. -/
theorem timelapse_execute_spec (b : ℚ) (p q : EOPatch) (stack : Arr4)
    (frames : List (List (List (List ℕ))))
    (hst : p.features (FeatureType.data, "BANDS-S2-L1C") = some (.a4 stack))
    (hex : TimeLapseTask_execute b p = some (q, frames)) :
    q = p ∧ frames = stack.map (makeFrameRGB b) ∧ framesBounded frames := by
  unfold TimeLapseTask_execute at hex
  rw [hst] at hex
  simp only [Option.some.injEq, Prod.mk.injEq] at hex
  obtain ⟨hq, hframes⟩ := hex
  refine ⟨hq.symm, hframes.symm, ?_⟩
  subst hframes
  intro f hf row hrow px hpx v hv
  simp only [List.mem_map] at hf
  obtain ⟨image, _, rfl⟩ := hf
  simp only [makeFrameRGB, List.mem_map] at hrow
  obtain ⟨irow, _, rfl⟩ := hrow
  simp only [List.mem_map] at hpx
  obtain ⟨chans, _, rfl⟩ := hpx
  simp only [List.mem_map] at hv
  obtain ⟨i, _, rfl⟩ := hv
  exact framePixelValue_le_255 b (chans.getD i 0)

/-- C9 witness: the timelapse task evaluated on the concrete tlPatch
returns the patch unchanged with bounded frame pixels. -/
theorem timelapse_witness :
    (tlPatch.features (FeatureType.data, "BANDS-S2-L1C")
        = some (.a4 [[[[0, 0, 0, 2, 3, 5]]]]) ∧
      TimeLapseTask_execute 1 tlPatch = some (tlResult.1, tlResult.2)) ∧
    (tlResult.1 = tlPatch ∧ framesBounded tlResult.2) := by
  have h := timelapse_execute_spec 1 tlPatch tlResult.1 [[[[0, 0, 0, 2, 3, 5]]]] tlResult.2
    (by rfl) (by rfl)
  exact ⟨⟨by rfl, by rfl⟩, h.1, h.2.2⟩
